import Mathlib

/-!
Verification of the feature-categorization and model-training pipeline of
`1.regression_modelling/scripts/1.train_models.py` from the
`nuclear_speckles_analysis` repository.

The script's only repository-specific logic is:
* a feature-categorization loop that splits each column name of the training
  table on `_` and sorts it into one of three lists
  (`nucleus_features`, `a647_features`, `gold_features`), skipping columns
  prefixed `Metadata_`;
* a per-column in-place shuffle of the nucleus predictor matrix, made once;
* an orchestration that fits models (combined per stain and per individual
  target feature, each on real and on shuffled predictors) and writes each
  fitted model to a path derived from the target name and condition.

We embed these pieces as executable Lean functions and prove the spec's
claims about them.
-/

namespace NuclearSpeckles

/-- `isPrefixListOf pat s`: the character list `pat` is an initial segment of
`s`.  Building block for the Python `in` (substring) operator. -/
def isPrefixListOf : List Char → List Char → Bool
  | [], _ => true
  | _ :: _, [] => false
  | a :: as, b :: bs => a == b && isPrefixListOf as bs

/-- `containsList pat s`: `pat` occurs as a contiguous sublist of `s`. -/
def containsList (pat : List Char) : List Char → Bool
  | [] => isPrefixListOf pat []
  | c :: rest => isPrefixListOf pat (c :: rest) || containsList pat rest

/-- Embedding of Python's substring test `pat in s` on strings. -/
def substrOf (pat s : String) : Bool :=
  containsList pat.data s.data

/-- Embedding of Python's `s.startswith(pre)`. -/
def strStartsWith (s pre : String) : Bool :=
  isPrefixListOf pre.data s.data

/-- Split a character list on a separator character.  Like Python's
`str.split(sep)`: the empty list yields `[[]]`, adjacent separators yield
empty pieces, and a leading/trailing separator yields a leading/trailing
empty piece. -/
def splitCharsOn (sep : Char) : List Char → List (List Char)
  | [] => [[]]
  | c :: rest =>
    match splitCharsOn sep rest with
    | [] => [[]]
    | h :: t => if c = sep then [] :: h :: t else (c :: h) :: t

/-- Embedding of Python's `column.split(sep)` for a one-character separator. -/
def splitPartsOn (sep : Char) (s : String) : List String :=
  (splitCharsOn sep s.data).map String.mk

instance {ε α : Type} [DecidableEq ε] [DecidableEq α] :
    DecidableEq (Except ε α) := fun a b =>
  match a, b with
  | Except.error e1, Except.error e2 =>
    match decEq e1 e2 with
    | isTrue h => isTrue (by rw [h])
    | isFalse h => isFalse (by intro he; cases he; exact h rfl)
  | Except.ok g1, Except.ok g2 =>
    match decEq g1 g2 with
    | isTrue h => isTrue (by rw [h])
    | isFalse h => isFalse (by intro he; cases he; exact h rfl)
  | Except.error _, Except.ok _ => isFalse (by intro h; cases h)
  | Except.ok _, Except.error _ => isFalse (by intro h; cases h)

/-- The three feature groups of the categorization loop:
`nucleus_features`, `a647_features` (Target-A), `gold_features` (Target-B). -/
inductive Group where
  | nucleus
  | a647
  | gold
  deriving DecidableEq, Repr

/-- One iteration of the categorization loop
(`1.train_models.py`, lines 71-101) on a single column name.

* `Except.ok none` - the column is appended to no list (either it starts
  with `Metadata_` or it falls through every branch);
* `Except.ok (some g)` - the column is appended to group `g`;
* `Except.error ()` - the Python code would raise `IndexError`: a
  non-metadata name with fewer than two `_`-separated parts reaches
  `parts[1]` out of bounds.

The `parts.getD i ""` accesses are all guarded by the same length tests as
the Python `parts[i]`, so the default is never consulted. -/
def classifyColumn (column : String) : Except Unit (Option Group) :=
  if strStartsWith column "Metadata_" = true then
    Except.ok none
  else
    let parts := splitPartsOn '_' column
    if parts.length < 2 then
      Except.error ()
    else if substrOf "Correlation" (parts.getD 1 "") = true then
      if substrOf "DAPI" column = true then
        if 4 < parts.length ∧ (substrOf "A647" (parts.getD 3 "") = true ∨
            substrOf "A647" (parts.getD 4 "") = true) then
          Except.ok (some Group.a647)
        else if 4 < parts.length ∧ (substrOf "GOLD" (parts.getD 3 "") = true ∨
            substrOf "GOLD" (parts.getD 4 "") = true) then
          Except.ok (some Group.gold)
        else
          Except.ok none
      else
        if 3 < parts.length ∧ substrOf "A647" (parts.getD 3 "") = true then
          Except.ok (some Group.a647)
        else if 3 < parts.length ∧ substrOf "GOLD" (parts.getD 3 "") = true then
          Except.ok (some Group.gold)
        else
          Except.ok none
    else
      if 4 < parts.length ∧ substrOf "Location" (parts.getD 1 "") = true then
        if parts.getD 4 "" = "DAPI" then
          Except.ok (some Group.nucleus)
        else if parts.getD 4 "" = "A647" then
          Except.ok (some Group.a647)
        else if parts.getD 4 "" = "GOLD" then
          Except.ok (some Group.gold)
        else
          Except.ok none
      else if 3 < parts.length ∧ substrOf "DAPI" (parts.getD 3 "") = true then
        Except.ok (some Group.nucleus)
      else if 3 < parts.length ∧ substrOf "A647" (parts.getD 3 "") = true then
        Except.ok (some Group.a647)
      else if 3 < parts.length ∧ substrOf "GOLD" (parts.getD 3 "") = true then
        Except.ok (some Group.gold)
      else
        Except.ok (some Group.nucleus)

/-- The whole categorization loop: iterate `classifyColumn` over the column
names in order, building the three lists in input order.  An `IndexError`
on any column aborts the whole run, as the unguarded Python script would. -/
def classifyFeatures :
    List String → Except Unit (List String × List String × List String)
  | [] => Except.ok ([], [], [])
  | c :: rest =>
    match classifyColumn c with
    | Except.error e => Except.error e
    | Except.ok g =>
      match classifyFeatures rest with
      | Except.error e => Except.error e
      | Except.ok (ln, la, lg) =>
        match g with
        | none => Except.ok (ln, la, lg)
        | some Group.nucleus => Except.ok (c :: ln, la, lg)
        | some Group.a647 => Except.ok (ln, c :: la, lg)
        | some Group.gold => Except.ok (ln, la, c :: lg)

/-- `assignedTo c g`: the loop iteration on column `c` appends `c` to the
list of group `g`. -/
def assignedTo (c : String) (g : Group) : Bool :=
  match classifyColumn c with
  | Except.ok (some h) => decide (h = g)
  | _ => false

theorem assignedTo_eq_true {c : String} {g : Group} :
    assignedTo c g = true ↔ classifyColumn c = Except.ok (some g) := by
  unfold assignedTo
  cases hc : classifyColumn c with
  | error e => simp
  | ok o =>
    cases o with
    | none => simp
    | some h => simp [decide_eq_true_iff]

theorem assignedTo_unique {c : String} {g1 g2 : Group}
    (h1 : assignedTo c g1 = true) (h2 : assignedTo c g2 = true) : g1 = g2 := by
  rw [assignedTo_eq_true] at h1 h2
  rw [h1] at h2
  cases h2
  rfl

/-- Characterization of a successful run of the categorization loop: each of
the three lists is exactly the input filtered to the columns the loop
assigns to that group, in input order. -/
theorem classifyFeatures_ok_filter {cols ln la lg : List String}
    (h : classifyFeatures cols = Except.ok (ln, la, lg)) :
    ln = cols.filter (fun c => assignedTo c Group.nucleus) ∧
    la = cols.filter (fun c => assignedTo c Group.a647) ∧
    lg = cols.filter (fun c => assignedTo c Group.gold) := by
  induction cols generalizing ln la lg with
  | nil =>
    simp only [classifyFeatures, Except.ok.injEq, Prod.mk.injEq] at h
    obtain ⟨h1, h2, h3⟩ := h
    subst h1; subst h2; subst h3
    simp
  | cons c rest ih =>
    simp only [classifyFeatures] at h
    cases hc : classifyColumn c with
    | error e => rw [hc] at h; simp at h
    | ok g =>
      rw [hc] at h
      cases hr : classifyFeatures rest with
      | error e => rw [hr] at h; simp at h
      | ok r =>
        obtain ⟨ln0, la0, lg0⟩ := r
        rw [hr] at h
        obtain ⟨e1, e2, e3⟩ := ih hr
        cases g with
        | none =>
          dsimp only at h
          simp only [Except.ok.injEq, Prod.mk.injEq] at h
          obtain ⟨h1, h2, h3⟩ := h
          subst h1; subst h2; subst h3
          refine ⟨?_, ?_, ?_⟩ <;>
            simp [List.filter_cons, assignedTo, hc, e1, e2, e3]
        | some gg =>
          cases gg with
          | nucleus =>
            dsimp only at h
            simp only [Except.ok.injEq, Prod.mk.injEq] at h
            obtain ⟨h1, h2, h3⟩ := h
            subst h1; subst h2; subst h3
            refine ⟨?_, ?_, ?_⟩ <;>
              simp [List.filter_cons, assignedTo, hc, e1, e2, e3]
          | a647 =>
            dsimp only at h
            simp only [Except.ok.injEq, Prod.mk.injEq] at h
            obtain ⟨h1, h2, h3⟩ := h
            subst h1; subst h2; subst h3
            refine ⟨?_, ?_, ?_⟩ <;>
              simp [List.filter_cons, assignedTo, hc, e1, e2, e3]
          | gold =>
            dsimp only at h
            simp only [Except.ok.injEq, Prod.mk.injEq] at h
            obtain ⟨h1, h2, h3⟩ := h
            subst h1; subst h2; subst h3
            refine ⟨?_, ?_, ?_⟩ <;>
              simp [List.filter_cons, assignedTo, hc, e1, e2, e3]

/-- On a successful run, every column of the input was classified without
an index error. -/
theorem classifyFeatures_ok_col {cols : List String}
    {r : List String × List String × List String}
    (h : classifyFeatures cols = Except.ok r) :
    ∀ c ∈ cols, ∃ g, classifyColumn c = Except.ok g := by
  induction cols generalizing r with
  | nil => intro c hc; cases hc
  | cons c rest ih =>
    simp only [classifyFeatures] at h
    cases hc : classifyColumn c with
    | error e => rw [hc] at h; simp at h
    | ok g =>
      rw [hc] at h
      cases hr : classifyFeatures rest with
      | error e => rw [hr] at h; simp at h
      | ok r0 =>
        intro x hx
        rcases List.mem_cons.mp hx with hx | hx
        · subst hx; exact ⟨g, hc⟩
        · exact ih hr x hx

/-- The column list of the spec's end-to-end scenario. -/
def scenarioCols : List String :=
  ["Metadata_Well", "Nuclei_Correlation_DAPI_A647",
    "Nuclei_Location_Center_GOLD", "Cells_AreaShape_DAPI"]

/-- C1, counterexample: on the end-to-end scenario input the classifier
does not produce the claimed grouping.  `Nuclei_Correlation_DAPI_A647`
is not placed in Target-A (it splits into only four parts, so the
DAPI-correlation branch, which requires `len(parts) > 4`, never fires). -/
theorem c1_scenario_counterexample :
    classifyFeatures scenarioCols ≠
      Except.ok (["Cells_AreaShape_DAPI"], ["Nuclei_Correlation_DAPI_A647"],
        ["Nuclei_Location_Center_GOLD"]) := by decide

/-- C1 (amended): on the scenario input, `Nuclei_Correlation_DAPI_A647`
has only four `_`-parts — one fewer than the five required by the
DAPI-correlation branch — so it is dropped from every group.  The actual
output is Nucleus = [Cells_AreaShape_DAPI], Target-A = [],
Target-B = [Nuclei_Location_Center_GOLD], and the `Metadata_` column
appears in no group. -/
theorem c1_scenario_actual :
    classifyFeatures scenarioCols =
      Except.ok (["Cells_AreaShape_DAPI"], [],
        ["Nuclei_Location_Center_GOLD"]) := by decide

/-- C2, counterexample: a non-metadata column can be silently absent from
all three groups.  `Nuclei_Correlation_DAPI_A647` is not excluded by the
metadata prefix, yet a run on just this column leaves every group empty,
so the union of the groups plus the metadata-excluded columns does not
contain every input column. -/
theorem c2_partition_counterexample :
    strStartsWith "Nuclei_Correlation_DAPI_A647" "Metadata_" = false ∧
    classifyFeatures ["Nuclei_Correlation_DAPI_A647"] =
      Except.ok ([], [], []) := by decide

/-- C2 (amended): on a successful run the three group lists are pairwise
disjoint and contain only input columns, and every input column is either
in one of the three groups or was assigned to no group by its loop
iteration (metadata-skipped or dropped).  Since dropped non-metadata
columns exist, the union plus metadata-excluded columns need not contain
every input column. -/
theorem c2_partition (cols ln la lg : List String) (c : String)
    (h : classifyFeatures cols = Except.ok (ln, la, lg)) :
    (c ∈ cols →
      c ∈ ln ∨ c ∈ la ∨ c ∈ lg ∨ classifyColumn c = Except.ok none) ∧
    ((c ∈ ln ∨ c ∈ la ∨ c ∈ lg) → c ∈ cols) ∧
    ¬(c ∈ ln ∧ c ∈ la) ∧ ¬(c ∈ ln ∧ c ∈ lg) ∧ ¬(c ∈ la ∧ c ∈ lg) := by
  obtain ⟨e1, e2, e3⟩ := classifyFeatures_ok_filter h
  subst e1; subst e2; subst e3
  refine ⟨?_, ?_, ?_, ?_, ?_⟩
  · intro hc
    rcases classifyFeatures_ok_col h c hc with ⟨g, hg⟩
    cases g with
    | none => exact Or.inr (Or.inr (Or.inr hg))
    | some gg =>
      cases gg with
      | nucleus =>
        exact Or.inl (List.mem_filter.mpr ⟨hc, assignedTo_eq_true.mpr hg⟩)
      | a647 =>
        exact Or.inr (Or.inl
          (List.mem_filter.mpr ⟨hc, assignedTo_eq_true.mpr hg⟩))
      | gold =>
        exact Or.inr (Or.inr (Or.inl
          (List.mem_filter.mpr ⟨hc, assignedTo_eq_true.mpr hg⟩)))
  · rintro (hc | hc | hc) <;> exact (List.mem_filter.mp hc).1
  · rintro ⟨h1, h2⟩
    exact absurd (assignedTo_unique (List.mem_filter.mp h1).2
      (List.mem_filter.mp h2).2) (by decide)
  · rintro ⟨h1, h2⟩
    exact absurd (assignedTo_unique (List.mem_filter.mp h1).2
      (List.mem_filter.mp h2).2) (by decide)
  · rintro ⟨h1, h2⟩
    exact absurd (assignedTo_unique (List.mem_filter.mp h1).2
      (List.mem_filter.mp h2).2) (by decide)

/-- Witness for the amended C2 theorem on the scenario run. -/
theorem c2_partition_witness :
    "Cells_AreaShape_DAPI" ∈ (["Cells_AreaShape_DAPI"] : List String) ∨
    "Cells_AreaShape_DAPI" ∈ ([] : List String) ∨
    "Cells_AreaShape_DAPI" ∈ (["Nuclei_Location_Center_GOLD"] : List String) ∨
    classifyColumn "Cells_AreaShape_DAPI" = Except.ok none :=
  (c2_partition scenarioCols ["Cells_AreaShape_DAPI"] []
    ["Nuclei_Location_Center_GOLD"] "Cells_AreaShape_DAPI" (by decide)).1
    (by decide)

/-- C6: the loop appends a column to at most one of the three group lists;
no column name is a member of two groups simultaneously. -/
theorem c6_at_most_one_group (cols ln la lg : List String) (c : String)
    (h : classifyFeatures cols = Except.ok (ln, la, lg)) :
    ¬(c ∈ ln ∧ c ∈ la) ∧ ¬(c ∈ ln ∧ c ∈ lg) ∧ ¬(c ∈ la ∧ c ∈ lg) := by
  obtain ⟨e1, e2, e3⟩ := classifyFeatures_ok_filter h
  subst e1; subst e2; subst e3
  refine ⟨?_, ?_, ?_⟩ <;> rintro ⟨h1, h2⟩ <;>
    exact absurd (assignedTo_unique (List.mem_filter.mp h1).2
      (List.mem_filter.mp h2).2) (by decide)

/-- Witness for C6 on the scenario run. -/
theorem c6_at_most_one_group_witness :
    ¬("Cells_AreaShape_DAPI" ∈ (["Cells_AreaShape_DAPI"] : List String) ∧
        "Cells_AreaShape_DAPI" ∈ ([] : List String)) ∧
    ¬("Cells_AreaShape_DAPI" ∈ (["Cells_AreaShape_DAPI"] : List String) ∧
        "Cells_AreaShape_DAPI" ∈ (["Nuclei_Location_Center_GOLD"] : List String)) ∧
    ¬("Cells_AreaShape_DAPI" ∈ ([] : List String) ∧
        "Cells_AreaShape_DAPI" ∈ (["Nuclei_Location_Center_GOLD"] : List String)) :=
  c6_at_most_one_group scenarioCols ["Cells_AreaShape_DAPI"] []
    ["Nuclei_Location_Center_GOLD"] "Cells_AreaShape_DAPI" (by decide)

/-- C3: for a non-metadata column whose part 1 contains `"Correlation"`,
the branch behaves as specified.  With `"DAPI"` anywhere in the name, parts
3 and 4 are inspected only when at least five parts exist: an `"A647"`
occurrence sends the column to Target-A, else a `"GOLD"` occurrence to
Target-B, else it is dropped.  Without `"DAPI"`, only part 3 is inspected
(at least four parts required): `"A647"` to Target-A, `"GOLD"` to
Target-B, otherwise dropped. -/
theorem c3_correlation_branch (column : String)
    (hm : strStartsWith column "Metadata_" = false)
    (hlen : 2 ≤ (splitPartsOn '_' column).length)
    (hcorr : substrOf "Correlation" ((splitPartsOn '_' column).getD 1 "") = true) :
    classifyColumn column =
      (if substrOf "DAPI" column = true then
        (if 5 ≤ (splitPartsOn '_' column).length ∧
            (substrOf "A647" ((splitPartsOn '_' column).getD 3 "") = true ∨
              substrOf "A647" ((splitPartsOn '_' column).getD 4 "") = true) then
          Except.ok (some Group.a647)
        else if 5 ≤ (splitPartsOn '_' column).length ∧
            (substrOf "GOLD" ((splitPartsOn '_' column).getD 3 "") = true ∨
              substrOf "GOLD" ((splitPartsOn '_' column).getD 4 "") = true) then
          Except.ok (some Group.gold)
        else Except.ok none)
      else
        (if 4 ≤ (splitPartsOn '_' column).length ∧
            substrOf "A647" ((splitPartsOn '_' column).getD 3 "") = true then
          Except.ok (some Group.a647)
        else if 4 ≤ (splitPartsOn '_' column).length ∧
            substrOf "GOLD" ((splitPartsOn '_' column).getD 3 "") = true then
          Except.ok (some Group.gold)
        else Except.ok none)) := by
  simp only [classifyColumn]
  rw [if_neg (by simp only [hm]; decide), if_neg (by omega), if_pos hcorr]
  rfl

/-- Witness for C3 at a concrete DAPI correlation column with five parts
whose part 4 contains `A647`. -/
theorem c3_correlation_branch_witness :
    classifyColumn "Nuclei_Correlation_Manders_DAPI_A647" =
      (if substrOf "DAPI" "Nuclei_Correlation_Manders_DAPI_A647" = true then
        (if 5 ≤ (splitPartsOn '_' "Nuclei_Correlation_Manders_DAPI_A647").length ∧
            (substrOf "A647" ((splitPartsOn '_' "Nuclei_Correlation_Manders_DAPI_A647").getD 3 "") = true ∨
              substrOf "A647" ((splitPartsOn '_' "Nuclei_Correlation_Manders_DAPI_A647").getD 4 "") = true) then
          Except.ok (some Group.a647)
        else if 5 ≤ (splitPartsOn '_' "Nuclei_Correlation_Manders_DAPI_A647").length ∧
            (substrOf "GOLD" ((splitPartsOn '_' "Nuclei_Correlation_Manders_DAPI_A647").getD 3 "") = true ∨
              substrOf "GOLD" ((splitPartsOn '_' "Nuclei_Correlation_Manders_DAPI_A647").getD 4 "") = true) then
          Except.ok (some Group.gold)
        else Except.ok none)
      else
        (if 4 ≤ (splitPartsOn '_' "Nuclei_Correlation_Manders_DAPI_A647").length ∧
            substrOf "A647" ((splitPartsOn '_' "Nuclei_Correlation_Manders_DAPI_A647").getD 3 "") = true then
          Except.ok (some Group.a647)
        else if 4 ≤ (splitPartsOn '_' "Nuclei_Correlation_Manders_DAPI_A647").length ∧
            substrOf "GOLD" ((splitPartsOn '_' "Nuclei_Correlation_Manders_DAPI_A647").getD 3 "") = true then
          Except.ok (some Group.gold)
        else Except.ok none)) :=
  c3_correlation_branch "Nuclei_Correlation_Manders_DAPI_A647"
    (by decide) (by decide) (by decide)

/-- C4: for a non-metadata, non-correlation column whose part 1 contains
`"Location"` and that has at least five parts, part 4 is compared by exact
equality: `"DAPI"` goes to Nucleus, `"A647"` to Target-A, `"GOLD"` to
Target-B, and any other value drops the column from all groups instead of
falling through to the Nucleus default. -/
theorem c4_location_branch (column : String)
    (hm : strStartsWith column "Metadata_" = false)
    (hcorr : substrOf "Correlation" ((splitPartsOn '_' column).getD 1 "") = false)
    (hloc : substrOf "Location" ((splitPartsOn '_' column).getD 1 "") = true)
    (hlen : 5 ≤ (splitPartsOn '_' column).length) :
    classifyColumn column =
      (if (splitPartsOn '_' column).getD 4 "" = "DAPI" then
        Except.ok (some Group.nucleus)
      else if (splitPartsOn '_' column).getD 4 "" = "A647" then
        Except.ok (some Group.a647)
      else if (splitPartsOn '_' column).getD 4 "" = "GOLD" then
        Except.ok (some Group.gold)
      else
        Except.ok none) := by
  simp only [classifyColumn]
  rw [if_neg (by simp only [hm]; decide), if_neg (by omega),
    if_neg (by simp only [hcorr]; decide), if_pos ⟨by omega, hloc⟩]

/-- Witness for C4 at a concrete Location column whose part 4 is exactly
`DAPI`. -/
theorem c4_location_branch_witness :
    classifyColumn "Nuclei_Location_Center_X_DAPI" =
      (if (splitPartsOn '_' "Nuclei_Location_Center_X_DAPI").getD 4 "" = "DAPI" then
        Except.ok (some Group.nucleus)
      else if (splitPartsOn '_' "Nuclei_Location_Center_X_DAPI").getD 4 "" = "A647" then
        Except.ok (some Group.a647)
      else if (splitPartsOn '_' "Nuclei_Location_Center_X_DAPI").getD 4 "" = "GOLD" then
        Except.ok (some Group.gold)
      else
        Except.ok none) :=
  c4_location_branch "Nuclei_Location_Center_X_DAPI"
    (by decide) (by decide) (by decide) (by decide)

/-- C5: the fallback for unmatched columns is asymmetric.  A correlation
column (`ca`) whose marker checks all fail is assigned to no group, while
a non-correlation column (`cb`) that triggers neither the Location rule
nor any part-3 marker rule falls to the catch-all and is assigned to
Nucleus. -/
theorem c5_fallback_asymmetry (ca cb : String)
    (hma : strStartsWith ca "Metadata_" = false)
    (hlena : 2 ≤ (splitPartsOn '_' ca).length)
    (hcorra : substrOf "Correlation" ((splitPartsOn '_' ca).getD 1 "") = true)
    (hdapi1 : substrOf "DAPI" ca = true →
      ¬(4 < (splitPartsOn '_' ca).length ∧
          (substrOf "A647" ((splitPartsOn '_' ca).getD 3 "") = true ∨
            substrOf "A647" ((splitPartsOn '_' ca).getD 4 "") = true)) ∧
      ¬(4 < (splitPartsOn '_' ca).length ∧
          (substrOf "GOLD" ((splitPartsOn '_' ca).getD 3 "") = true ∨
            substrOf "GOLD" ((splitPartsOn '_' ca).getD 4 "") = true)))
    (hdapi0 : substrOf "DAPI" ca = false →
      ¬(3 < (splitPartsOn '_' ca).length ∧
          substrOf "A647" ((splitPartsOn '_' ca).getD 3 "") = true) ∧
      ¬(3 < (splitPartsOn '_' ca).length ∧
          substrOf "GOLD" ((splitPartsOn '_' ca).getD 3 "") = true))
    (hmb : strStartsWith cb "Metadata_" = false)
    (hlenb : 2 ≤ (splitPartsOn '_' cb).length)
    (hcorrb : substrOf "Correlation" ((splitPartsOn '_' cb).getD 1 "") = false)
    (hlocb : ¬(4 < (splitPartsOn '_' cb).length ∧
        substrOf "Location" ((splitPartsOn '_' cb).getD 1 "") = true))
    (hd3 : ¬(3 < (splitPartsOn '_' cb).length ∧
        substrOf "DAPI" ((splitPartsOn '_' cb).getD 3 "") = true))
    (ha3 : ¬(3 < (splitPartsOn '_' cb).length ∧
        substrOf "A647" ((splitPartsOn '_' cb).getD 3 "") = true))
    (hg3 : ¬(3 < (splitPartsOn '_' cb).length ∧
        substrOf "GOLD" ((splitPartsOn '_' cb).getD 3 "") = true)) :
    classifyColumn ca = Except.ok none ∧
    classifyColumn cb = Except.ok (some Group.nucleus) := by
  constructor
  · simp only [classifyColumn]
    rw [if_neg (by simp only [hma]; decide), if_neg (by omega), if_pos hcorra]
    by_cases hd : substrOf "DAPI" ca = true
    · obtain ⟨n1, n2⟩ := hdapi1 hd
      rw [if_pos hd, if_neg n1, if_neg n2]
    · obtain ⟨n1, n2⟩ := hdapi0 (Bool.eq_false_iff.mpr hd)
      rw [if_neg hd, if_neg n1, if_neg n2]
  · simp only [classifyColumn]
    rw [if_neg (by simp only [hmb]; decide), if_neg (by omega),
      if_neg (by simp only [hcorrb]; decide),
      if_neg hlocb, if_neg hd3, if_neg ha3, if_neg hg3]

/-- Witness for C5: `Nuclei_Correlation_DAPI_A647` (correlation, four
parts, every marker check fails) is dropped, while
`Cells_AreaShape_Shape_Form` (non-correlation, no rule matches) defaults
to Nucleus. -/
theorem c5_fallback_asymmetry_witness :
    classifyColumn "Nuclei_Correlation_DAPI_A647" = Except.ok none ∧
    classifyColumn "Cells_AreaShape_Shape_Form" =
      Except.ok (some Group.nucleus) :=
  c5_fallback_asymmetry "Nuclei_Correlation_DAPI_A647"
    "Cells_AreaShape_Shape_Form" (by decide) (by decide) (by decide)
    (by decide) (by decide) (by decide) (by decide) (by decide) (by decide)
    (by decide) (by decide) (by decide)

/-- A single loop iteration cannot raise when the column is metadata-skipped
or splits into at least two parts. -/
theorem classifyColumn_isOk {x : String}
    (h : strStartsWith x "Metadata_" = false →
      2 ≤ (splitPartsOn '_' x).length) :
    (classifyColumn x).isOk = true := by
  by_cases hm : strStartsWith x "Metadata_" = true
  · simp only [classifyColumn]
    rw [if_pos hm]
    rfl
  · have h2 := h (Bool.eq_false_iff.mpr hm)
    simp only [classifyColumn]
    rw [if_neg hm, if_neg (by omega : ¬(splitPartsOn '_' x).length < 2)]
    split_ifs <;> rfl

/-- The whole loop cannot raise when every non-metadata column splits into
at least two parts. -/
theorem classifyFeatures_isOk {cols : List String}
    (hpre : ∀ x ∈ cols, strStartsWith x "Metadata_" = false →
      2 ≤ (splitPartsOn '_' x).length) :
    (classifyFeatures cols).isOk = true := by
  induction cols with
  | nil => rfl
  | cons x rest ih =>
    have hx := classifyColumn_isOk (hpre x (List.mem_cons_self x rest))
    have hr := ih (fun y hy => hpre y (List.mem_cons_of_mem x hy))
    simp only [classifyFeatures]
    cases hcx : classifyColumn x with
    | error e => rw [hcx] at hx; simp [Except.isOk, Except.toBool] at hx
    | ok g =>
      cases hcr : classifyFeatures rest with
      | error e => rw [hcr] at hr; simp [Except.isOk, Except.toBool] at hr
      | ok r =>
        obtain ⟨ln, la, lg⟩ := r
        cases g with
        | none => rfl
        | some gg => cases gg <;> rfl

/-- C10: the loop reads part index 1 of every non-metadata column name, so
a non-metadata name with no underscore (a single part) hits an
out-of-bounds access — in the embedding, `Except.error ()`.  Under the
precondition that every non-metadata column splits into at least two
parts, the error branch is unreachable and the whole loop is
well-defined. -/
theorem c10_parts_precondition (cols : List String) (c : String)
    (hpre : ∀ x ∈ cols, strStartsWith x "Metadata_" = false →
      2 ≤ (splitPartsOn '_' x).length)
    (hc1 : strStartsWith c "Metadata_" = false)
    (hc2 : (splitPartsOn '_' c).length < 2) :
    (classifyFeatures cols).isOk = true ∧
    classifyColumn c = Except.error () := by
  refine ⟨classifyFeatures_isOk hpre, ?_⟩
  simp only [classifyColumn]
  rw [if_neg (by simp only [hc1]; decide), if_pos hc2]

/-- Witness for C10: the scenario columns satisfy the precondition and the
loop succeeds on them, while the underscore-free non-metadata name
`NoUnderscore` raises. -/
theorem c10_parts_precondition_witness :
    (classifyFeatures scenarioCols).isOk = true ∧
    classifyColumn "NoUnderscore" = Except.error () :=
  c10_parts_precondition scenarioCols "NoUnderscore"
    (by decide) (by decide) (by decide)

/-! ## Predictor matrices, the shuffled baseline, and the training run

A data table is column-oriented: a list of (column name, values) pairs.
`np.random.shuffle` permutes one column's values in place; the permutation
the RNG draws for the `i`-th column is abstracted as a function `σ i`,
constrained in the theorems to return a permutation of its input. -/

/-- `training_df[names]`: the sub-table of the named columns, in the order
of `names` (lookup by name, first match). -/
def colValues (df : List (String × List Int)) (n : String) : List Int :=
  match df.find? (fun p => p.1 = n) with
  | some p => p.2
  | none => []

/-- Column selection `df[names]`. -/
def selectCols (df : List (String × List Int)) (names : List String) :
    List (String × List Int) :=
  names.map (fun n => (n, colValues df n))

/-- The loop `for col in X_shuffled.columns: np.random.shuffle(...)`
starting at column index `i`: each column keeps its name and gets its
values replaced by `σ i` applied to them. -/
def shuffleCols (σ : Nat → List Int → List Int) :
    Nat → List (String × List Int) → List (String × List Int)
  | _, [] => []
  | i, (n, v) :: rest => (n, σ i v) :: shuffleCols σ (i + 1) rest

/-- `X_shuffled`: the per-column in-place shuffle of a predictor matrix
(`1.train_models.py`, lines 108-110), generated once. -/
def shuffleTable (σ : Nat → List Int → List Int)
    (df : List (String × List Int)) : List (String × List Int) :=
  shuffleCols σ 0 df

theorem shuffleCols_map_fst (σ : Nat → List Int → List Int) :
    ∀ (k : Nat) (df : List (String × List Int)),
      (shuffleCols σ k df).map Prod.fst = df.map Prod.fst := by
  intro k df
  induction df generalizing k with
  | nil => rfl
  | cons p rest ih =>
    obtain ⟨n, v⟩ := p
    simp [shuffleCols, ih]

theorem shuffleCols_getD (σ : Nat → List Int → List Int)
    (hσ : ∀ i v, List.Perm (σ i v) v) :
    ∀ (k : Nat) (df : List (String × List Int)) (i : Nat),
      List.Perm ((shuffleCols σ k df).getD i ("", [])).2
        ((df.getD i ("", [])).2) := by
  intro k df
  induction df generalizing k with
  | nil => intro i; simp [shuffleCols]
  | cons p rest ih =>
    intro i
    obtain ⟨n, v⟩ := p
    cases i with
    | zero => simpa [shuffleCols] using hσ k v
    | succ j => simpa [shuffleCols] using ih (k + 1) j

/-- C7: the shuffled baseline matrix has the same column names in the same
order as its source, the same number of columns, and at every column
position `i` its values are a permutation of the source column's values
(equal as multisets), hence also of the same length (same shape). -/
theorem c7_shuffle_preserves (σ : Nat → List Int → List Int)
    (df : List (String × List Int)) (i : Nat)
    (hσ : ∀ j v, List.Perm (σ j v) v) :
    (shuffleTable σ df).map Prod.fst = df.map Prod.fst ∧
    (shuffleTable σ df).length = df.length ∧
    List.Perm ((shuffleTable σ df).getD i ("", [])).2
      ((df.getD i ("", [])).2) ∧
    ((shuffleTable σ df).getD i ("", [])).2.length =
      ((df.getD i ("", [])).2.length) := by
  have hfst := shuffleCols_map_fst σ 0 df
  have hperm := shuffleCols_getD σ hσ 0 df i
  refine ⟨hfst, ?_, hperm, hperm.length_eq⟩
  have := congrArg List.length hfst
  simpa using this

/-- Witness for C7: the identity permutation on a two-column table. -/
theorem c7_shuffle_preserves_witness :
    (shuffleTable (fun _ v => v) [("a", [1, 2]), ("b", [3])]).map Prod.fst =
      [("a", [1, 2]), ("b", [3])].map Prod.fst ∧
    (shuffleTable (fun _ v => v) [("a", [1, 2]), ("b", [3])]).length =
      ([("a", [1, 2]), ("b", [3])] : List (String × List Int)).length ∧
    List.Perm
      ((shuffleTable (fun _ v => v) [("a", [1, 2]), ("b", [3])]).getD 0
        ("", [])).2
      (([("a", [1, 2]), ("b", [3])] : List (String × List Int)).getD 0
        ("", [])).2 ∧
    ((shuffleTable (fun _ v => v) [("a", [1, 2]), ("b", [3])]).getD 0
        ("", [])).2.length =
      (([("a", [1, 2]), ("b", [3])] : List (String × List Int)).getD 0
        ("", [])).2.length :=
  c7_shuffle_preserves (fun _ v => v) [("a", [1, 2]), ("b", [3])] 0
    (fun _ v => List.Perm.refl v)

/-- One model fit performed and persisted by the script: the output path,
whether it came from the combined (per-stain) loops or the individual
loops, whether the predictors were the shuffled matrix, which predictor
matrix was passed to `fit`, and the target column names. -/
structure FitEvent where
  path : String
  combinedScope : Bool
  usesShuffledX : Bool
  Xmat : List (String × List Int)
  targets : List String
  deriving DecidableEq, Repr

/-- One iteration of the combined loop: a real fit saved to
`models/all_features/combined_<STAIN>_tuned_model.joblib` followed by a
shuffled fit saved to
`models/all_features/combined_<STAIN>_shuffled_tuned_model.joblib`. -/
def stainEvents (X Xs : List (String × List Int)) (stain : String)
    (fl : List String) : List FitEvent :=
  [{ path := "models/all_features/combined_" ++ stain ++ "_tuned_model.joblib",
     combinedScope := true, usesShuffledX := false, Xmat := X, targets := fl },
   { path := "models/all_features/combined_" ++ stain ++
       "_shuffled_tuned_model.joblib",
     combinedScope := true, usesShuffledX := true, Xmat := Xs, targets := fl }]

/-- The combined loop over `[("A647", a647_features), ("GOLD", gold_features)]`. -/
def combinedEvents (X Xs : List (String × List Int)) (la lg : List String) :
    List FitEvent :=
  stainEvents X Xs "A647" la ++ stainEvents X Xs "GOLD" lg

/-- An individual-target loop: per feature, a real fit saved to
`models/final/<feature>_tuned_model.joblib` and a shuffled fit saved to
`models/shuffled_baseline/<feature>_shuffled_tuned_model.joblib`. -/
def individualEvents (X Xs : List (String × List Int)) :
    List String → List FitEvent
  | [] => []
  | f :: rest =>
    { path := "models/final/" ++ f ++ "_tuned_model.joblib",
      combinedScope := false, usesShuffledX := false, Xmat := X,
      targets := [f] } ::
    { path := "models/shuffled_baseline/" ++ f ++ "_shuffled_tuned_model.joblib",
      combinedScope := false, usesShuffledX := true, Xmat := Xs,
      targets := [f] } ::
    individualEvents X Xs rest

/-- All fits of one run, in script order: the combined loop over both
stains, then the individual A647 loop, then the individual GOLD loop.
`X` is the nucleus sub-table and `Xs` its shuffle, both computed once,
before any fit. -/
def mkEvents (df : List (String × List Int))
    (σ : Nat → List Int → List Int) (ln la lg : List String) :
    List FitEvent :=
  combinedEvents (selectCols df ln) (shuffleTable σ (selectCols df ln)) la lg ++
    individualEvents (selectCols df ln) (shuffleTable σ (selectCols df ln)) la ++
    individualEvents (selectCols df ln) (shuffleTable σ (selectCols df ln)) lg

/-- The whole run: categorize the columns, build `X` and `X_shuffled`, then
perform every fit.  A categorization error aborts the run. -/
def runPipeline (df : List (String × List Int))
    (σ : Nat → List Int → List Int) : Except Unit (List FitEvent) :=
  match classifyFeatures (df.map Prod.fst) with
  | Except.error e => Except.error e
  | Except.ok (ln, la, lg) => Except.ok (mkEvents df σ ln la lg)

theorem stainEvents_mem {X Xs : List (String × List Int)} {st : String}
    {fl : List String} {e : FitEvent} (he : e ∈ stainEvents X Xs st fl) :
    (e.usesShuffledX = true → e.Xmat = Xs) ∧
    (e.usesShuffledX = false → e.Xmat = X) := by
  simp only [stainEvents, List.mem_cons, List.not_mem_nil, or_false] at he
  rcases he with rfl | rfl
  · exact ⟨fun h => by simp at h, fun _ => rfl⟩
  · exact ⟨fun _ => rfl, fun h => by simp at h⟩

theorem combinedEvents_mem {X Xs : List (String × List Int)}
    {la lg : List String} {e : FitEvent}
    (he : e ∈ combinedEvents X Xs la lg) :
    (e.usesShuffledX = true → e.Xmat = Xs) ∧
    (e.usesShuffledX = false → e.Xmat = X) := by
  simp only [combinedEvents, List.mem_append] at he
  rcases he with he | he
  · exact stainEvents_mem he
  · exact stainEvents_mem he

theorem individualEvents_mem {X Xs : List (String × List Int)}
    {fs : List String} {e : FitEvent} (he : e ∈ individualEvents X Xs fs) :
    (e.usesShuffledX = true → e.Xmat = Xs) ∧
    (e.usesShuffledX = false → e.Xmat = X) := by
  induction fs with
  | nil => cases he
  | cons f rest ih =>
    simp only [individualEvents, List.mem_cons] at he
    rcases he with rfl | rfl | he
    · exact ⟨fun h => by simp at h, fun _ => rfl⟩
    · exact ⟨fun _ => rfl, fun h => by simp at h⟩
    · exact ih he

/-- C8: in a run, every fit on the shuffled condition — combined per-stain
fits and individual fits alike — receives the one matrix
`shuffleTable σ X` built from the nucleus predictors before any fit, and
every real-condition fit receives `X` itself; the shuffled matrix is
never regenerated between targets. -/
theorem c8_shuffled_matrix_once (df : List (String × List Int))
    (σ : Nat → List Int → List Int) (ln la lg : List String)
    (evs : List FitEvent)
    (hcls : classifyFeatures (df.map Prod.fst) = Except.ok (ln, la, lg))
    (hrun : runPipeline df σ = Except.ok evs)
    (e : FitEvent) (he : e ∈ evs) :
    (e.usesShuffledX = true →
      e.Xmat = shuffleTable σ (selectCols df ln)) ∧
    (e.usesShuffledX = false → e.Xmat = selectCols df ln) := by
  unfold runPipeline at hrun
  rw [hcls] at hrun
  injection hrun with h
  subst h
  simp only [mkEvents, List.mem_append] at he
  rcases he with (he | he) | he
  · exact combinedEvents_mem he
  · exact individualEvents_mem he
  · exact individualEvents_mem he

/-- The RNG abstraction used by the concrete witnesses: the identity
permutation for every column. -/
def wSigma : Nat → List Int → List Int := fun _ v => v

/-- The training table of the end-to-end scenario, with arbitrary values. -/
def scenarioTable : List (String × List Int) :=
  [("Metadata_Well", [0, 1]), ("Nuclei_Correlation_DAPI_A647", [10, 11]),
    ("Nuclei_Location_Center_GOLD", [20, 21]),
    ("Cells_AreaShape_DAPI", [30, 31])]

/-- The combined A647 shuffled-condition fit of the scenario run. -/
def wEventC8 : FitEvent :=
  { path := "models/all_features/combined_A647_shuffled_tuned_model.joblib",
    combinedScope := true, usesShuffledX := true,
    Xmat := shuffleTable wSigma (selectCols scenarioTable
      ["Cells_AreaShape_DAPI"]),
    targets := [] }

/-- Witness for C8 at the scenario run. -/
theorem c8_shuffled_matrix_once_witness :
    (wEventC8.usesShuffledX = true →
      wEventC8.Xmat =
        shuffleTable wSigma (selectCols scenarioTable
          ["Cells_AreaShape_DAPI"])) ∧
    (wEventC8.usesShuffledX = false →
      wEventC8.Xmat = selectCols scenarioTable ["Cells_AreaShape_DAPI"]) :=
  c8_shuffled_matrix_once scenarioTable wSigma ["Cells_AreaShape_DAPI"] []
    ["Nuclei_Location_Center_GOLD"]
    (mkEvents scenarioTable wSigma ["Cells_AreaShape_DAPI"] []
      ["Nuclei_Location_Center_GOLD"])
    (by decide) rfl wEventC8 (by decide)

theorem individualEvents_filter_scope (X Xs : List (String × List Int))
    (fs : List String) :
    (individualEvents X Xs fs).filter (fun e => e.combinedScope) = [] := by
  induction fs with
  | nil => rfl
  | cons f rest ih => simp [individualEvents, List.filter_cons, ih]

theorem individualEvents_filter_real (X Xs : List (String × List Int))
    (fs : List String) :
    ((individualEvents X Xs fs).filter
        (fun e => !e.combinedScope && !e.usesShuffledX)).map FitEvent.path =
      fs.map (fun f => "models/final/" ++ f ++ "_tuned_model.joblib") := by
  induction fs with
  | nil => rfl
  | cons f rest ih => simp [individualEvents, List.filter_cons, ih]

theorem individualEvents_filter_shuffled (X Xs : List (String × List Int))
    (fs : List String) :
    ((individualEvents X Xs fs).filter
        (fun e => !e.combinedScope && e.usesShuffledX)).map FitEvent.path =
      fs.map (fun f =>
        "models/shuffled_baseline/" ++ f ++ "_shuffled_tuned_model.joblib") := by
  induction fs with
  | nil => rfl
  | cons f rest ih => simp [individualEvents, List.filter_cons, ih]

theorem combinedEvents_scope_paths (X Xs : List (String × List Int))
    (la lg : List String) :
    ((combinedEvents X Xs la lg).filter
        (fun e => e.combinedScope)).map FitEvent.path =
      ["models/all_features/combined_A647_tuned_model.joblib",
        "models/all_features/combined_A647_shuffled_tuned_model.joblib",
        "models/all_features/combined_GOLD_tuned_model.joblib",
        "models/all_features/combined_GOLD_shuffled_tuned_model.joblib"] := rfl

theorem combinedEvents_filter_real (X Xs : List (String × List Int))
    (la lg : List String) :
    (combinedEvents X Xs la lg).filter
      (fun e => !e.combinedScope && !e.usesShuffledX) = [] := rfl

theorem combinedEvents_filter_shuffled (X Xs : List (String × List Int))
    (la lg : List String) :
    (combinedEvents X Xs la lg).filter
      (fun e => !e.combinedScope && e.usesShuffledX) = [] := rfl

/-- C9: in a run, each individual target feature's real-data fit is saved
to `models/final/<feature>_tuned_model.joblib` and its shuffled fit to
`models/shuffled_baseline/<feature>_shuffled_tuned_model.joblib` (one pair
per feature of Target-A then Target-B, in order), and the combined loop
saves exactly four files under `models/all_features/`, named
`combined_<STAIN>_tuned_model.joblib` and
`combined_<STAIN>_shuffled_tuned_model.joblib` for the stains A647 and
GOLD. -/
theorem c9_artifact_paths (df : List (String × List Int))
    (σ : Nat → List Int → List Int) (ln la lg : List String)
    (evs : List FitEvent)
    (hcls : classifyFeatures (df.map Prod.fst) = Except.ok (ln, la, lg))
    (hrun : runPipeline df σ = Except.ok evs) :
    ((evs.filter (fun e => e.combinedScope)).map FitEvent.path =
      ["models/all_features/combined_A647_tuned_model.joblib",
        "models/all_features/combined_A647_shuffled_tuned_model.joblib",
        "models/all_features/combined_GOLD_tuned_model.joblib",
        "models/all_features/combined_GOLD_shuffled_tuned_model.joblib"]) ∧
    ((evs.filter
        (fun e => !e.combinedScope && !e.usesShuffledX)).map FitEvent.path =
      (la ++ lg).map
        (fun f => "models/final/" ++ f ++ "_tuned_model.joblib")) ∧
    ((evs.filter
        (fun e => !e.combinedScope && e.usesShuffledX)).map FitEvent.path =
      (la ++ lg).map (fun f =>
        "models/shuffled_baseline/" ++ f ++ "_shuffled_tuned_model.joblib")) := by
  unfold runPipeline at hrun
  rw [hcls] at hrun
  injection hrun with h
  subst h
  refine ⟨?_, ?_, ?_⟩
  · simp only [mkEvents, List.filter_append, individualEvents_filter_scope,
      List.append_nil, combinedEvents_scope_paths]
  · simp only [mkEvents, List.filter_append, combinedEvents_filter_real,
      List.nil_append, List.map_append, individualEvents_filter_real]
  · simp only [mkEvents, List.filter_append, combinedEvents_filter_shuffled,
      List.nil_append, List.map_append, individualEvents_filter_shuffled]

/-- Witness for C9 at the scenario run (Target-A empty, Target-B with one
feature). -/
theorem c9_artifact_paths_witness :
    (((mkEvents scenarioTable wSigma ["Cells_AreaShape_DAPI"] []
          ["Nuclei_Location_Center_GOLD"]).filter
        (fun e => e.combinedScope)).map FitEvent.path =
      ["models/all_features/combined_A647_tuned_model.joblib",
        "models/all_features/combined_A647_shuffled_tuned_model.joblib",
        "models/all_features/combined_GOLD_tuned_model.joblib",
        "models/all_features/combined_GOLD_shuffled_tuned_model.joblib"]) ∧
    (((mkEvents scenarioTable wSigma ["Cells_AreaShape_DAPI"] []
          ["Nuclei_Location_Center_GOLD"]).filter
        (fun e => !e.combinedScope && !e.usesShuffledX)).map FitEvent.path =
      (([] : List String) ++ ["Nuclei_Location_Center_GOLD"]).map
        (fun f => "models/final/" ++ f ++ "_tuned_model.joblib")) ∧
    (((mkEvents scenarioTable wSigma ["Cells_AreaShape_DAPI"] []
          ["Nuclei_Location_Center_GOLD"]).filter
        (fun e => !e.combinedScope && e.usesShuffledX)).map FitEvent.path =
      (([] : List String) ++ ["Nuclei_Location_Center_GOLD"]).map (fun f =>
        "models/shuffled_baseline/" ++ f ++ "_shuffled_tuned_model.joblib")) :=
  c9_artifact_paths scenarioTable wSigma ["Cells_AreaShape_DAPI"] []
    ["Nuclei_Location_Center_GOLD"]
    (mkEvents scenarioTable wSigma ["Cells_AreaShape_DAPI"] []
      ["Nuclei_Location_Center_GOLD"])
    (by decide) rfl

end NuclearSpeckles
